import Mathlib

/-!
Verification of the `hishel` HTTP cache controller (`src/hishel/_controller.py`).

Byte-strings are modelled as lists of characters (`Bytes`); header lists as
ordered lists of name/value pairs. The helper modules `_headers` and `_utils`
are not part of the source tree, so their operations (`CacheControl.from_value`,
`extract_header_values`, `header_presents`, `parse_date`) are modelled from the
specification, as marked in their doc comments. Everything in `_controller.py`
is translated directly from the Python source, including its use of these
helpers; Python exceptions are modelled with `Except PyErr`.
-/

/-- Byte-strings of the Python code, modelled as lists of characters. -/
abbrev Bytes := List Char

/-- An ordered list of HTTP header (name, value) pairs; duplicates permitted. -/
abbrev Headers := List (Bytes × Bytes)

/-- ASCII lowercasing of a byte-string, as Python `bytes.lower()`. -/
def lower (s : Bytes) : Bytes := s.map Char.toLower

/-- Strip leading whitespace (helper for `trim`). -/
def trimLeft : Bytes → Bytes
  | [] => []
  | c :: cs => if c.isWhitespace then trimLeft cs else c :: cs

/-- Strip whitespace from both ends, as Python `str.strip()`. -/
def trim (s : Bytes) : Bytes := (trimLeft (trimLeft s.reverse).reverse)

/-- Split a byte-string on every occurrence of the character `sep`. -/
def splitOnChar (sep : Char) : Bytes → List Bytes
  | [] => [[]]
  | x :: xs =>
    match splitOnChar sep xs with
    | [] => if x == sep then [[], []] else [[x]]
    | y :: ys => if x == sep then [] :: y :: ys else (x :: y) :: ys

/-- Interpret a non-empty all-digit byte-string as a natural number. -/
def toNatDigits (s : Bytes) : Option Nat :=
  if s ≠ [] ∧ s.all Char.isDigit then
    some (s.foldl (fun acc c => acc * 10 + (c.toNat - '0'.toNat)) 0)
  else none

/-- Interpret an optionally signed decimal byte-string as an integer, as
Python `int()` applied to an already-trimmed token. -/
def toIntBytes (s : Bytes) : Option Int :=
  match s with
  | '-' :: rest => (toNatDigits rest).map (fun n => -(n : Int))
  | '+' :: rest => (toNatDigits rest).map (fun n => (n : Int))
  | _ => (toNatDigits s).map (fun n => (n : Int))

/-- Does byte-string `s` start with `pre`? -/
def startsWith : Bytes → Bytes → Bool
  | _, [] => true
  | [], _ :: _ => false
  | c :: cs, p :: ps => c == p && startsWith cs ps

/-- Modelled from the spec: the `CacheControl` directive set of the missing
`_headers` module (§3, §4.2): boolean flags plus optional integer values,
where absence is distinct from a present zero. `private` is a Lean keyword,
hence the field name `private_`. -/
structure CacheControl where
  no_store : Bool
  no_cache : Bool
  public : Bool
  private_ : Bool
  must_revalidate : Bool
  max_age : Option Int
  s_maxage : Option Int
  deriving DecidableEq, Repr

/-- The directive set with nothing present. -/
def CacheControl.empty : CacheControl := ⟨false, false, false, false, false, none, none⟩

/-- Modelled from the spec (§4.2): parse one comma-separated token — trim
whitespace, match flags case-insensitively, read `max-age=<int>` and
`s-maxage=<int>` values, ignore unknown tokens and unparsable numbers. -/
def CacheControl.applyToken (cc : CacheControl) (tok : Bytes) : CacheControl :=
  let t := lower (trim tok)
  if t = "no-store".data then { cc with no_store := true }
  else if t = "no-cache".data then { cc with no_cache := true }
  else if t = "public".data then { cc with public := true }
  else if t = "private".data then { cc with private_ := true }
  else if t = "must-revalidate".data then { cc with must_revalidate := true }
  else if startsWith t "max-age=".data then
    match toIntBytes (t.drop 8) with
    | some n => { cc with max_age := some n }
    | none => cc
  else if startsWith t "s-maxage=".data then
    match toIntBytes (t.drop 9) with
    | some n => { cc with s_maxage := some n }
    | none => cc
  else cc

/-- Modelled from the spec (§4.2): `CacheControl.from_value` of the missing
`_headers` module — split every raw `Cache-Control` value on commas and fold
the tokens into a directive set; parsing never fails. -/
def CacheControl.from_value (raw_values : List Bytes) : CacheControl :=
  ((raw_values.map (splitOnChar ',')).flatten).foldl CacheControl.applyToken CacheControl.empty

/-- Modelled from the spec (§4.1): `extract_header_values` of the missing
`_utils` module — all values whose name matches case-insensitively, in
original order; with `single` set, at most the first match. -/
def extract_header_values (headers : Headers) (key : Bytes) (single : Bool) : List Bytes :=
  let vals := (headers.filter (fun p => lower p.1 == lower key)).map Prod.snd
  if single then vals.take 1 else vals

/-- Modelled from the spec (§4.1): the decoded variant of
`extract_header_values`; decoding bytes to text is the identity in this
model. -/
def extract_header_values_decoded (headers : Headers) (key : Bytes) (single : Bool) : List Bytes :=
  extract_header_values headers key single

/-- Modelled from the spec (§4.1): `header_presents` of the missing `_utils`
module — case-insensitive membership test. -/
def header_presents (headers : Headers) (key : Bytes) : Bool :=
  headers.any (fun p => lower p.1 == lower key)

/-- The seven IMF-fixdate day names, each followed by the comma that
separates them from the rest of the date. -/
def dayNamesComma : List Bytes :=
  ["Sun,".data, "Mon,".data, "Tue,".data, "Wed,".data, "Thu,".data, "Fri,".data, "Sat,".data]

/-- Month abbreviation to month number (1–12). -/
def monthNum (m : Bytes) : Option Nat :=
  if m = "Jan".data then some 1
  else if m = "Feb".data then some 2
  else if m = "Mar".data then some 3
  else if m = "Apr".data then some 4
  else if m = "May".data then some 5
  else if m = "Jun".data then some 6
  else if m = "Jul".data then some 7
  else if m = "Aug".data then some 8
  else if m = "Sep".data then some 9
  else if m = "Oct".data then some 10
  else if m = "Nov".data then some 11
  else if m = "Dec".data then some 12
  else none

/-- Parse exactly `len` decimal digits. -/
def parseFixedNat (len : Nat) (s : Bytes) : Option Nat :=
  if s.length = len then toNatDigits s else none

/-- Days from 1970-01-01 to the civil date `y-m-d` (proleptic Gregorian,
valid for `1 ≤ y`, `1 ≤ m ≤ 12`). -/
def daysFromCivil (y m d : Nat) : Int :=
  let y2 := if m ≤ 2 then y - 1 else y
  let era := y2 / 400
  let yoe := y2 % 400
  let mp := (m + 9) % 12
  let doy := (153 * mp + 2) / 5 + d - 1
  let doe := yoe * 365 + yoe / 4 - yoe / 100 + doy
  ((era * 146097 + doe : Nat) : Int) - 719468

/-- Modelled from the spec (§4.1): `parse_date` of the missing `_utils`
module — parse an HTTP IMF-fixdate such as `Sun, 06 Nov 1994 08:49:37 GMT`
into a Unix-epoch integer; `none` models the `DateParseError` the spec says
is raised on unrecognized formats. The commonly accepted legacy formats are
not modelled: no claim depends on which exact strings parse, only on parse
success or failure and on the resulting timestamps. -/
def parse_date (s : Bytes) : Option Int :=
  match splitOnChar ' ' s with
  | [dayName, dayS, monS, yearS, timeS, tz] =>
    if tz = "GMT".data ∧ dayNamesComma.contains dayName then
      match parseFixedNat 2 dayS, monthNum monS, parseFixedNat 4 yearS with
      | some d, some m, some y =>
        if 1 ≤ d ∧ d ≤ 31 ∧ 1 ≤ y then
          match splitOnChar ':' timeS with
          | [hS, miS, sS] =>
            match parseFixedNat 2 hS, parseFixedNat 2 miS, parseFixedNat 2 sS with
            | some h, some mi, some sec =>
              if h ≤ 23 ∧ mi ≤ 59 ∧ sec ≤ 59 then
                some (daysFromCivil y m d * 86400 + ((h * 3600 + mi * 60 + sec : Nat) : Int))
              else none
            | _, _, _ => none
          | _ => none
        else none
      | _, _, _ => none
    else none
  | _ => none


/-- An HTTP request: method and headers (`_controller.py` reads `method` and
reads/mutates `headers`). -/
structure Request where
  method : Bytes
  headers : Headers
  deriving DecidableEq, Repr

/-- An HTTP response: status code and headers. -/
structure Response where
  status : Nat
  headers : Headers
  deriving DecidableEq, Repr

/-- The Python exceptions that `_controller.py` can raise: `TypeError` from
comparing an `int` with `None`, `DateParseError` from `parse_date`, and
`IndexError` from indexing `[0]` into an empty extraction result. -/
inductive PyErr where
  | typeError
  | dateParseError
  | indexError
  deriving DecidableEq, Repr

/-- `HEURISTICALLY_CACHABLE`, line 9 of `_controller.py`. -/
def HEURISTICALLY_CACHABLE : List Nat :=
  [200, 203, 204, 206, 300, 301, 308, 404, 405, 410, 414, 501]

/-- The controller's configuration state set by `Controller.__init__`. -/
structure Controller where
  cacheable_methods : List Bytes
  cacheable_status_codes : List Nat
  deriving DecidableEq, Repr

/-- `Controller.__init__` (lines 14–26): a falsy argument (`None` or the
empty list) falls back to the default `["GET"]` / `[200]`. -/
def Controller.init (ms : Option (List Bytes)) (scs : Option (List Nat)) : Controller :=
  { cacheable_methods :=
      match ms with
      | some l => if l.isEmpty then ["GET".data] else l
      | none => ["GET".data]
    cacheable_status_codes :=
      match scs with
      | some l => if l.isEmpty then [200] else l
      | none => [200] }

/-- `Controller.is_cachable` (lines 28–72), translated directly: note that
line 51 looks up the header name `expiers` (sic), not `expires`. -/
def is_cachable (c : Controller) (request : Request) (response : Response) : Bool :=
  let method := request.method
  let response_cache_control := CacheControl.from_value
    (extract_header_values_decoded response.headers "cache-control".data false)
  if method ∉ c.cacheable_methods then false
  else if response.status / 100 = 1 then false
  else if response_cache_control.no_store then false
  else
    let expires_presents := header_presents response.headers "expiers".data
    if !(response_cache_control.public || response_cache_control.private_ ||
         expires_presents || response_cache_control.max_age.isSome ||
         HEURISTICALLY_CACHABLE.contains response.status) then false
    else true

/-- The headers emitted by the first `for` loop of
`Controller.get_updated_headers` (lines 84–93): walk the stored headers
threading the `checked` set, which holds raw (case-sensitive) names exactly
as the Python `set` does. -/
def gu_loop1_out (stored_all new : Headers) : Headers → List Bytes → Headers
  | [], _checked => []
  | (key, _v) :: rest, checked =>
    if key ∉ checked ∧ lower key ≠ "content-length".data then
      (if (extract_header_values new key false).isEmpty then
        (extract_header_values stored_all key false).map (fun v => (key, v))
      else (extract_header_values new key false).map (fun v => (key, v))) ++
        gu_loop1_out stored_all new rest (key :: checked)
    else gu_loop1_out stored_all new rest checked

/-- The final state of the `checked` set after the first `for` loop of
`Controller.get_updated_headers` (lines 84–93); the updates do not depend on
the new headers. -/
def gu_loop1_checked : Headers → List Bytes → List Bytes
  | [], checked => checked
  | (key, _v) :: rest, checked =>
    if key ∉ checked ∧ lower key ≠ "content-length".data then
      gu_loop1_checked rest (key :: checked)
    else gu_loop1_checked rest checked

/-- The second `for` loop of `Controller.get_updated_headers` (lines 95–98):
walk the new headers; the Python loop never adds to `checked`. -/
def gu_loop2 (new : Headers) (checked : List Bytes) : Headers → Headers
  | [] => []
  | (key, _v) :: rest =>
    if key ∉ checked ∧ lower key ≠ "content-length".data then
      ((extract_header_values new key false).map (fun v => (key, v))) ++
        gu_loop2 new checked rest
    else gu_loop2 new checked rest

/-- `Controller.get_updated_headers` (lines 75–100): both loops iterate with
`checked` starting empty after the first loop's final `checked` state is fed
into the second. -/
def get_updated_headers (stored_response_headers new_response_headers : Headers) : Headers :=
  gu_loop1_out stored_response_headers new_response_headers stored_response_headers [] ++
    gu_loop2 new_response_headers (gu_loop1_checked stored_response_headers [])
      new_response_headers

/-- `Controller.get_freshness_lifetime` (lines 102–117). The Python body has
no exception handling: a missing `Date`/`Expires` value raises `IndexError`
at the `[0]` index and an unparsable date raises `DateParseError` from
`parse_date`; both surface as `.error` here. `.ok none` is the `return None`
fall-through (no lifetime computable). -/
def get_freshness_lifetime (response : Response) : Except PyErr (Option Int) :=
  let response_cache_control := CacheControl.from_value
    (extract_header_values_decoded response.headers "Cache-Control".data false)
  match response_cache_control.max_age with
  | some a => .ok (some a)
  | none =>
    if header_presents response.headers "expires".data then
      match (extract_header_values_decoded response.headers "expires".data true).head? with
      | none => .error .indexError
      | some expires =>
        match parse_date expires with
        | none => .error .dateParseError
        | some expires_timestamp =>
          match (extract_header_values_decoded response.headers "date".data true).head? with
          | none => .error .indexError
          | some date =>
            match parse_date date with
            | none => .error .dateParseError
            | some date_timestamp => .ok (some (expires_timestamp - date_timestamp))
    else .ok none

/-- `Controller.get_age` (lines 119–126): `time.time()` is passed in as
`now`; `int(max(0, now - date))` with integral `now` is `max 0 (now - date)`. -/
def get_age (now : Int) (response : Response) : Except PyErr Int :=
  match (extract_header_values_decoded response.headers "date".data false).head? with
  | none => .error .indexError
  | some d =>
    match parse_date d with
    | none => .error .dateParseError
    | some date => .ok (max 0 (now - date))

/-- The guarded single-value lookup used twice by
`Controller.make_request_conditional` (lines 130–138): the first matching
value when the header is present, `None` otherwise. -/
def lookupSingle (headers : Headers) (key : Bytes) : Option Bytes :=
  if header_presents headers key then (extract_header_values headers key true).head?
  else none

/-- `Controller.make_request_conditional` (lines 128–146), with the in-place
mutation of `request.headers` modelled by returning the updated request.
Python's `if last_modified:` / `if etag:` are truthiness tests: an empty
header value behaves like an absent header. -/
def make_request_conditional (request : Request) (response : Response) : Request :=
  let last_modified : Option Bytes := lookupSingle response.headers "last-modified".data
  let etag : Option Bytes := lookupSingle response.headers "etag".data
  let precondition_headers : Headers :=
    (match last_modified with
     | some v => if v.isEmpty then [] else [("If-Unmodified-Since".data, v)]
     | none => []) ++
    (match etag with
     | some v => if v.isEmpty then [] else [("If-None-Match".data, v)]
     | none => [])
  { request with headers := request.headers ++ precondition_headers }

/-- `Controller.alloweed_stale` (lines 148–158); the source's spelling is
kept. -/
def alloweed_stale (response : Response) : Bool :=
  let response_cache_control := CacheControl.from_value
    (extract_header_values_decoded response.headers "Cache-Control".data false)
  if response_cache_control.no_cache then false
  else if response_cache_control.must_revalidate then false
  else true

/-- The value returned by `construct_response_from_cache`: a response, the
request instance, or — faithful to `return Request` on line 181, which
returns the `httpcore.Request` CLASS object rather than the `request`
instance — the marker `reqClass`. -/
inductive CacheResult where
  | resp (response : Response)
  | req (request : Request)
  | reqClass
  deriving DecidableEq, Repr

/-- `Controller.construct_response_from_cache` (lines 160–181), translated
directly: `is_fresh` is literally `age > freshness_lifetime` as on line 174
(so the name is the opposite of what the expression computes), comparing an
`int` with `None` raises `TypeError`, and the final branch returns the
`Request` class. The pair carries the final state of the caller's request
object alongside the Python return value. -/
def construct_response_from_cache (now : Int) (request : Request) (response : Response) :
    Except PyErr (Request × CacheResult) :=
  let response_cache_control := CacheControl.from_value
    (extract_header_values_decoded response.headers "Cache-Control".data false)
  if response_cache_control.no_cache then
    let request' := make_request_conditional request response
    .ok (request', .req request')
  else
    match get_freshness_lifetime response with
    | .error e => .error e
    | .ok freshness_lifetime =>
      match get_age now response with
      | .error e => .error e
      | .ok age =>
        match freshness_lifetime with
        | none => .error .typeError
        | some l =>
          let is_fresh := age > l
          if is_fresh || alloweed_stale response then
            .ok (request, .resp response)
          else
            let request' := make_request_conditional request response
            .ok (request', .reqClass)

/-- `Controller.handle_validation_response` (lines 183–192). -/
def handle_validation_response (old_response new_response : Response) : Response :=
  if new_response.status = 304 then
    { old_response with
      headers := get_updated_headers old_response.headers new_response.headers }
  else new_response

instance {e a : Type} [DecidableEq e] [DecidableEq a] : DecidableEq (Except e a) := fun x y =>
  match x, y with
  | .ok v, .ok w => if h : v = w then .isTrue (by rw [h]) else .isFalse (by simp [h])
  | .error v, .error w => if h : v = w then .isTrue (by rw [h]) else .isFalse (by simp [h])
  | .ok _, .error _ => .isFalse (by simp)
  | .error _, .ok _ => .isFalse (by simp)

/-- The directive set the controller derives from a response's
`Cache-Control` headers (the expression repeated on lines 104–105, 149–150
and 164–165 of `_controller.py`). -/
def respCC (response : Response) : CacheControl :=
  CacheControl.from_value
    (extract_header_values_decoded response.headers "Cache-Control".data false)

/-- The epoch instant in IMF-fixdate form, used as a concrete `Date` value. -/
def dEpoch : Bytes := "Thu, 01 Jan 1970 00:00:00 GMT".data

/-- A concrete GET request with no headers. -/
def reqGET : Request := ⟨"GET".data, []⟩

/-- A concrete stored response carrying `max-age=100, must-revalidate`, a
`Date` of the epoch and an `ETag`. -/
def respMR : Response :=
  ⟨200, [("Cache-Control".data, "max-age=100, must-revalidate".data),
         ("Date".data, dEpoch), ("ETag".data, "\"abc\"".data)]⟩

/-- A non-empty byte list is not `isEmpty`. -/
theorem isEmpty_eq_false_of_ne_nil {l : Bytes} (h : l ≠ []) : l.isEmpty = false := by
  cases l with
  | nil => exact absurd rfl h
  | cons a as => rfl

/-- Every pair emitted by the first merge loop has a name whose lowercasing
is not `content-length`. -/
theorem mem_gu_loop1_out (sa new : Headers) :
    ∀ (l : Headers) (checked : List Bytes) (p : Bytes × Bytes),
      p ∈ gu_loop1_out sa new l checked → lower p.1 ≠ "content-length".data := by
  intro l
  induction l with
  | nil => intro checked p hp; simp [gu_loop1_out] at hp
  | cons kv rest ih =>
    intro checked p hp
    obtain ⟨key, w⟩ := kv
    simp only [gu_loop1_out] at hp
    split at hp
    · next hc =>
      rw [List.mem_append] at hp
      rcases hp with hp | hp
      · split at hp <;>
        · obtain ⟨a, -, hfa⟩ := List.mem_map.1 hp
          subst hfa
          exact hc.2
      · exact ih _ _ hp
    · next hc => exact ih _ _ hp

/-- Every pair emitted by the second merge loop has a name whose lowercasing
is not `content-length`. -/
theorem mem_gu_loop2 (new : Headers) (checked : List Bytes) :
    ∀ (l : Headers) (p : Bytes × Bytes),
      p ∈ gu_loop2 new checked l → lower p.1 ≠ "content-length".data := by
  intro l
  induction l with
  | nil => intro p hp; simp [gu_loop2] at hp
  | cons kv rest ih =>
    intro p hp
    obtain ⟨key, w⟩ := kv
    simp only [gu_loop2] at hp
    split at hp
    · next hc =>
      rw [List.mem_append] at hp
      rcases hp with hp | hp
      · obtain ⟨a, -, hfa⟩ := List.mem_map.1 hp
        subst hfa
        exact hc.2
      · exact ih _ hp
    · next hc => exact ih _ hp

/-- Claim C1: the claim says a stored response with `age > freshness_lifetime`
and `must-revalidate` present is turned into a conditional request; on the
code the inverted test `is_fresh = age > freshness_lifetime` (line 174) makes
exactly this entry be served as the stored response, with the request left
untouched. -/
theorem construct_response_stale_must_revalidate_serves_stored :
    construct_response_from_cache 150 reqGET respMR = .ok (reqGET, .resp respMR) := by decide

/-- Claim C2: the claim says an entry whose age does not exceed its lifetime
is served as the stored response regardless of `must-revalidate`; on the code
the inverted freshness test sends this case into the revalidation branch,
which mutates the request and then returns the `Request` class object
(`return Request`, line 181), not the stored response. -/
theorem construct_response_fresh_must_revalidate_revalidates :
    construct_response_from_cache 50 reqGET respMR =
      .ok (⟨"GET".data, [("If-None-Match".data, "\"abc\"".data)]⟩, .reqClass) := by decide

/-- Claim C3: the claim says an unknown freshness lifetime is treated as not
fresh without raising; on the code `age > None` (line 174) raises `TypeError`
for every stored response without `no-cache` whose lifetime is unknown. -/
theorem construct_response_unknown_lifetime_type_error :
    construct_response_from_cache 50 reqGET ⟨200, [("Date".data, dEpoch)]⟩ =
      .error .typeError := by decide

/-- Claim C4: the claim says a response carrying an `Expires` header is
cacheable; the code looks up the misspelled header name `expiers` (line 51),
so a GET response with status 500 and only an `Expires` header is rejected. -/
theorem is_cachable_expires_only_not_cachable :
    is_cachable (Controller.init none none) reqGET ⟨500, [("Expires".data, dEpoch)]⟩ =
      false := by decide

/-- Claim C5: the claim says each distinct header name is processed exactly
once under case-insensitive comparison; the code's `checked` set stores raw
names and the second loop never adds to it, so a stored `ETag` matched by a
new `etag` is emitted twice, and a new-only name occurring on two pairs has
its two values emitted twice each. -/
theorem get_updated_headers_processes_names_twice :
    get_updated_headers [("ETag".data, "a".data)] [("etag".data, "b".data)] =
      [("ETag".data, "b".data), ("etag".data, "b".data)] ∧
    get_updated_headers [] [("X-A".data, "1".data), ("X-A".data, "2".data)] =
      [("X-A".data, "1".data), ("X-A".data, "2".data),
       ("X-A".data, "1".data), ("X-A".data, "2".data)] := by decide

/-- Claim C6, counterexample: a response with no `max-age` and an unparsable
`Expires` value makes `get_freshness_lifetime` raise `DateParseError` (the
`.error` result) instead of returning the absent value `None`. -/
theorem get_freshness_lifetime_raises_on_bad_expires :
    get_freshness_lifetime ⟨200, [("Expires".data, "garbage".data)]⟩ =
        .error .dateParseError ∧
      get_freshness_lifetime ⟨200, [("Expires".data, "garbage".data)]⟩ ≠ .ok none := by
  decide

/-- Claim C6 (amended): for a response without `max-age` but with an
`Expires` header, a date-parse failure or a missing `Date` header makes
`get_freshness_lifetime` raise (`DateParseError` from parsing, `IndexError`
from indexing into an empty `Date` extraction) — the failure propagates to
the caller rather than being downgraded to "lifetime unknown". -/
theorem get_freshness_lifetime_propagates_parse_failures (r : Response)
    (hma : (respCC r).max_age = none)
    (hex : header_presents r.headers "expires".data = true) :
    (∀ ev, (extract_header_values_decoded r.headers "expires".data true).head? = some ev →
        parse_date ev = none →
        get_freshness_lifetime r = .error .dateParseError) ∧
    (∀ ev et, (extract_header_values_decoded r.headers "expires".data true).head? = some ev →
        parse_date ev = some et →
        (extract_header_values_decoded r.headers "date".data true).head? = none →
        get_freshness_lifetime r = .error .indexError) ∧
    (∀ ev et dv, (extract_header_values_decoded r.headers "expires".data true).head? = some ev →
        parse_date ev = some et →
        (extract_header_values_decoded r.headers "date".data true).head? = some dv →
        parse_date dv = none →
        get_freshness_lifetime r = .error .dateParseError) := by
  unfold respCC at hma
  refine ⟨?_, ?_, ?_⟩
  · intro ev h1 h2
    simp [get_freshness_lifetime, hma, hex, h1, h2]
  · intro ev et h1 h2 h3
    simp [get_freshness_lifetime, hma, hex, h1, h2, h3]
  · intro ev et dv h1 h2 h3 h4
    simp [get_freshness_lifetime, hma, hex, h1, h2, h3, h4]

/-- Claim C6, witness for the amended theorem at a concrete response whose
`Expires` value does not parse. -/
theorem get_freshness_lifetime_propagates_parse_failures_witness :
    get_freshness_lifetime ⟨200, [("Expires".data, "nonsense".data)]⟩ =
      .error .dateParseError :=
  (get_freshness_lifetime_propagates_parse_failures
      ⟨200, [("Expires".data, "nonsense".data)]⟩ (by decide) (by decide)).1
    "nonsense".data (by decide) (by decide)

/-- Claim C7: `get_freshness_lifetime` returns the parsed `max-age` value
whenever the directive is present (even alongside `Expires`); with `max-age`
absent and `Expires` present and both dates parseable it returns their
difference; with `max-age` absent and no `Expires` header it returns the
absent value `None`. -/
theorem get_freshness_lifetime_precedence (r : Response) :
    (∀ a, (respCC r).max_age = some a → get_freshness_lifetime r = .ok (some a)) ∧
    ((respCC r).max_age = none → header_presents r.headers "expires".data = true →
      ∀ ev et dv dt,
        (extract_header_values_decoded r.headers "expires".data true).head? = some ev →
        parse_date ev = some et →
        (extract_header_values_decoded r.headers "date".data true).head? = some dv →
        parse_date dv = some dt →
        get_freshness_lifetime r = .ok (some (et - dt))) ∧
    ((respCC r).max_age = none → header_presents r.headers "expires".data = false →
      get_freshness_lifetime r = .ok none) := by
  refine ⟨?_, ?_, ?_⟩
  · intro a hma
    unfold respCC at hma
    simp [get_freshness_lifetime, hma]
  · intro hma hex ev et dv dt h1 h2 h3 h4
    unfold respCC at hma
    simp [get_freshness_lifetime, hma, hex, h1, h2, h3, h4]
  · intro hma hex
    unfold respCC at hma
    simp [get_freshness_lifetime, hma, hex]

/-- Claim C7, witness: `max-age=100` wins over an `Expires` implying a
different lifetime; the `Expires`/`Date` difference is used when `max-age`
is absent; no source at all yields the absent value. -/
theorem get_freshness_lifetime_precedence_witness :
    get_freshness_lifetime
        ⟨200, [("Cache-Control".data, "max-age=100".data),
               ("Expires".data, "Sun, 06 Nov 1994 08:49:37 GMT".data),
               ("Date".data, dEpoch)]⟩ = .ok (some 100) ∧
    get_freshness_lifetime
        ⟨200, [("Expires".data, "Sun, 06 Nov 1994 08:49:37 GMT".data),
               ("Date".data, dEpoch)]⟩ = .ok (some 784111777) ∧
    get_freshness_lifetime ⟨200, []⟩ = .ok none :=
  ⟨(get_freshness_lifetime_precedence _).1 100 (by decide),
   (get_freshness_lifetime_precedence
       ⟨200, [("Expires".data, "Sun, 06 Nov 1994 08:49:37 GMT".data),
              ("Date".data, dEpoch)]⟩).2.1 (by decide) (by decide)
     "Sun, 06 Nov 1994 08:49:37 GMT".data 784111777 dEpoch 0
     (by decide) (by decide) (by decide) (by decide),
   (get_freshness_lifetime_precedence ⟨200, []⟩).2.2 (by decide) (by decide)⟩

/-- Claim C8, counterexample: a stored response whose `Last-Modified` header
is present but has an empty value leaves the request entirely unmodified —
Python's `if last_modified:` truthiness test skips the append — contradicting
the claim that the header is appended whenever `Last-Modified` is present. -/
theorem make_request_conditional_skips_empty_last_modified :
    header_presents [(("Last-Modified".data : Bytes), ([] : Bytes))] "last-modified".data
        = true ∧
      make_request_conditional reqGET ⟨200, [("Last-Modified".data, [])]⟩ = reqGET := by
  decide

/-- Claim C8 (amended): `make_request_conditional` preserves the method and
all pre-existing request headers, appending (in order) `If-Unmodified-Since`
with the first stored `Last-Modified` value when that value is non-empty and
`If-None-Match` with the first stored `ETag` value when that value is
non-empty; when neither header is present with a non-empty value the request
is left entirely unmodified. -/
theorem make_request_conditional_appends_nonempty_preconditions
    (request : Request) (response : Response) :
    ((make_request_conditional request response).method = request.method) ∧
    (∃ tail, (make_request_conditional request response).headers = request.headers ++ tail) ∧
    (∀ v w, lookupSingle response.headers "last-modified".data = some v → v ≠ [] →
        lookupSingle response.headers "etag".data = some w → w ≠ [] →
        (make_request_conditional request response).headers =
          request.headers ++ [("If-Unmodified-Since".data, v), ("If-None-Match".data, w)]) ∧
    (∀ v, lookupSingle response.headers "last-modified".data = some v → v ≠ [] →
        (∀ w, lookupSingle response.headers "etag".data = some w → w = []) →
        (make_request_conditional request response).headers =
          request.headers ++ [("If-Unmodified-Since".data, v)]) ∧
    (∀ w, (∀ v, lookupSingle response.headers "last-modified".data = some v → v = []) →
        lookupSingle response.headers "etag".data = some w → w ≠ [] →
        (make_request_conditional request response).headers =
          request.headers ++ [("If-None-Match".data, w)]) ∧
    ((∀ v, lookupSingle response.headers "last-modified".data = some v → v = []) →
        (∀ w, lookupSingle response.headers "etag".data = some w → w = []) →
        make_request_conditional request response = request) := by
  refine ⟨rfl, ⟨_, rfl⟩, ?_, ?_, ?_, ?_⟩
  · intro v w hv hvne hw hwne
    simp [make_request_conditional, hv, hw,
      isEmpty_eq_false_of_ne_nil hvne, isEmpty_eq_false_of_ne_nil hwne]
  · intro v hv hvne hwnull
    cases hw : lookupSingle response.headers "etag".data with
    | none =>
      simp [make_request_conditional, hv, hw, isEmpty_eq_false_of_ne_nil hvne]
    | some w =>
      have := hwnull w hw
      subst this
      simp [make_request_conditional, hv, hw, isEmpty_eq_false_of_ne_nil hvne]
  · intro w hvnull hw hwne
    cases hv : lookupSingle response.headers "last-modified".data with
    | none =>
      simp [make_request_conditional, hv, hw, isEmpty_eq_false_of_ne_nil hwne]
    | some v =>
      have := hvnull v hv
      subst this
      simp [make_request_conditional, hv, hw, isEmpty_eq_false_of_ne_nil hwne]
  · intro hvnull hwnull
    cases hv : lookupSingle response.headers "last-modified".data with
    | none =>
      cases hw : lookupSingle response.headers "etag".data with
      | none => simp [make_request_conditional, hv, hw]
      | some w =>
        have := hwnull w hw
        subst this
        simp [make_request_conditional, hv, hw]
    | some v =>
      have := hvnull v hv
      subst this
      cases hw : lookupSingle response.headers "etag".data with
      | none => simp [make_request_conditional, hv, hw]
      | some w =>
        have := hwnull w hw
        subst this
        simp [make_request_conditional, hv, hw]

/-- Claim C8, witness for the amended theorem: both preconditions are
appended after the existing headers when `Last-Modified` and `ETag` carry
non-empty values. -/
theorem make_request_conditional_appends_nonempty_preconditions_witness :
    (make_request_conditional ⟨"GET".data, [("Accept".data, "a".data)]⟩
        ⟨200, [("Last-Modified".data, dEpoch), ("ETag".data, "\"e\"".data)]⟩).headers =
      [("Accept".data, "a".data)] ++
        [("If-Unmodified-Since".data, dEpoch), ("If-None-Match".data, "\"e\"".data)] :=
  (make_request_conditional_appends_nonempty_preconditions
      ⟨"GET".data, [("Accept".data, "a".data)]⟩
      ⟨200, [("Last-Modified".data, dEpoch), ("ETag".data, "\"e\"".data)]⟩).2.2.1
    dEpoch "\"e\"".data (by decide) (by decide) (by decide) (by decide)

/-- Claim C9: no pair produced by `get_updated_headers` has a name equal to
`Content-Length` under case-insensitive comparison, whatever the stored and
new header lists contain. -/
theorem get_updated_headers_excludes_content_length (stored new : Headers)
    (p : Bytes × Bytes) (hp : p ∈ get_updated_headers stored new) :
    lower p.1 ≠ lower "Content-Length".data := by
  have hcl : lower "Content-Length".data = "content-length".data := by decide
  rw [hcl]
  rw [get_updated_headers, List.mem_append] at hp
  rcases hp with hp | hp
  · exact mem_gu_loop1_out _ _ _ _ p hp
  · exact mem_gu_loop2 _ _ _ p hp

/-- Claim C9, witness: with `Content-Length` present in both inputs, the
merge output is `[(X, 1)]` and the theorem applies to that pair. -/
theorem get_updated_headers_excludes_content_length_witness :
    (("X".data, "1".data) ∈
        get_updated_headers [("Content-Length".data, "3".data), ("X".data, "1".data)]
          [("content-length".data, "4".data)]) ∧
      lower ("X".data, "1".data).1 ≠ lower "Content-Length".data :=
  ⟨by decide,
   get_updated_headers_excludes_content_length
     [("Content-Length".data, "3".data), ("X".data, "1".data)]
     [("content-length".data, "4".data)] ("X".data, "1".data) (by decide)⟩

/-- Claim C10: two controllers built with the same `cacheable_methods`
argument but arbitrary different `cacheable_status_codes` arguments decide
`is_cachable` identically on every request/response — the configured
status-code list is never consulted, heuristic cacheability always uses the
fixed `HEURISTICALLY_CACHABLE` set. -/
theorem is_cachable_ignores_cacheable_status_codes
    (ms : Option (List Bytes)) (scs1 scs2 : Option (List Nat))
    (request : Request) (response : Response) :
    is_cachable (Controller.init ms scs1) request response =
      is_cachable (Controller.init ms scs2) request response := rfl
